import Mathlib

/-!
# GPR300 Lighting: the per-frame point-light pipeline of `main.cpp`

A shallow embedding of the part of `main` in `src/GPR300_Lighting/main.cpp`
that packs the light and material parameters for the shading stage
(lines 204-270), with the point-light loop of lines 212-250 in detail.

* `float` is an arbitrary ring `α`; the theorems that speak of cosines and
  sines take `α := ℝ`, with `cos`, `sin` and `glm::radians` passed in as a
  `FloatMath` record so that every definition stays executable.
* `int` is `Int`.  No operation of the loop can overflow: `360 / n` has
  absolute value at most 360, `(360 / n) * i` is zero once `n > 360`, and
  `i + 1 <= numPointLights`.  `/` and `%` are the truncating `Int.tdiv`
  and `Int.tmod`; division by zero is an explicit error.
* The calls made on the two `Shader` objects and on the meshes are recorded,
  in program order, as a list of `GLCall`.  `Shader`, `Camera`, `Transform`
  and `Mesh` are declared in headers outside this file, so a uniform write is
  kept as the call the source makes (shader, name, value), the camera is the
  triple of values its getters return, and `Transform::getModelMatrix` is a
  parameter.
-/

namespace Lighting

/-! ## Data model (lines 59-107) -/

/-- The `glm::vec3` of the source, over the scalar type `α`. -/
structure Vec3 (α : Type) where
  x : α
  y : α
  z : α
deriving DecidableEq, Repr

/-- Componentwise sum, the `+=` of line 217. -/
def Vec3.add {α : Type} [Add α] (a b : Vec3 α) : Vec3 α :=
  ⟨a.x + b.x, a.y + b.y, a.z + b.z⟩

/-- The `struct Light` of lines 59-64. -/
structure Light (α : Type) where
  position : Vec3 α
  color : Vec3 α
  intensity : α
deriving DecidableEq, Repr

/-- The `struct DirectionalLight` of lines 66-70. -/
structure DirectionalLight (α : Type) where
  direction : Vec3 α
  light : Light α
deriving DecidableEq, Repr

/-- The `struct PointLight` of lines 72-78. -/
structure PointLight (α : Type) where
  position : Vec3 α
  light : Light α
  constK : α
  linearK : α
  quadraticK : α
deriving DecidableEq, Repr

/-- The `struct SpotLight` of lines 80-90. -/
structure SpotLight (α : Type) where
  position : Vec3 α
  direction : Vec3 α
  light : Light α
  range : α
  innerAngle : α
  outerAngle : α
  angleFalloff : α
deriving DecidableEq, Repr

/-- The `struct Material` of lines 92-97. -/
structure Material (α : Type) where
  color : Vec3 α
  ambientK : α
  diffuseK : α
  specularK : α
  shininess : α
deriving DecidableEq, Repr

/-- The file-scope variables of lines 99-107 that the packing reads. -/
structure Globals (α : Type) where
  numPointLights : Int
  pointLightOrbitCenter : Vec3 α
  pointLightOrbitRange : α
  pointLightOrbitSpeed : α
  _DirectionalLight : DirectionalLight α
  _PointLight : PointLight α
  _SpotLight : SpotLight α
  _Material : Material α
deriving DecidableEq, Repr

/-- The fields of `ew::Transform` that `main` touches (lines 178, 188-189, 246). -/
structure Transform (α : Type) where
  position : Vec3 α
  scale : Vec3 α
deriving DecidableEq, Repr

/-- What the three getters of the global `camera` return during one frame
(lines 205-206, 243-244, 270); `μ` is the 4x4 matrix type. -/
structure Camera (α μ : Type) where
  projectionMatrix : μ
  viewMatrix : μ
  position : Vec3 α
deriving DecidableEq, Repr

/-- The state one frame's packing can read or write: the globals and the
local `lightTransform` of `main` (line 178), which outlives the frame. -/
structure FrameState (α : Type) where
  globals : Globals α
  lightTransform : Transform α
deriving DecidableEq, Repr

/-- The library functions on `float` used by lines 215-216. -/
structure FloatMath (α : Type) where
  cos : α → α
  sin : α → α
  radians : α → α

/-! ## The calls one frame makes -/

/-- The two shader programs of lines 142 and 145. -/
inductive ShaderId where
  | litShader
  | unlitShader
deriving DecidableEq, Repr

/-- The four meshes of lines 156-159. -/
inductive MeshId where
  | cubeMesh
  | sphereMesh
  | planeMesh
  | cylinderMesh
deriving DecidableEq, Repr

/-- A uniform name: a fixed string, or the string
`"_PointLights[" + std::to_string(i) + "]" + suffix` of lines 235-240, kept
as the index and the suffix it is built from. -/
inductive UniformName where
  | plain (name : String)
  | pointLights (i : Int) (suffix : String)
deriving DecidableEq, Repr

/-- The string the source passes for a uniform name. -/
def UniformName.render : UniformName → String
  | .plain name => name
  | .pointLights i suffix => "_PointLights[" ++ toString i ++ "]" ++ suffix

/-- The value of a `setFloat`, `setVec3`, `setMat4` or `setInt` call. -/
inductive UniformValue (α μ : Type) where
  | float (v : α)
  | vec3 (v : Vec3 α)
  | mat4 (m : μ)
  | int (n : Int)
deriving DecidableEq, Repr

/-- One call on a shader or a mesh. -/
inductive GLCall (α μ : Type) where
  | use (s : ShaderId)
  | setUniform (s : ShaderId) (name : UniformName) (v : UniformValue α μ)
  | draw (m : MeshId)
deriving DecidableEq, Repr

/-- The ways the model of a frame can fail. -/
inductive FrameError where
  | divisionByZero
  | outOfFuel
deriving DecidableEq, Repr

/-! ## The point-light loop (lines 212-250) -/

/-- The `/` of C++ on `int`: truncating, undefined for a zero divisor. -/
def cDiv (a b : Int) : Except FrameError Int :=
  if b = 0 then .error .divisionByZero else .ok (Int.tdiv a b)

/-- The `int` expression `(360 / numPointLights) * i` of line 214. -/
def angleDegrees (numPointLights i : Int) : Except FrameError Int := do
  let q ← cDiv 360 numPointLights
  pure (q * i)

/-- Lines 214-217 after the integer expression: conversion to `float` and to
radians, the point on the circle, and the shift by the orbit centre. -/
def orbitPosition {α : Type} [Ring α] (fm : FloatMath α) (g : Globals α) (time : α)
    (degrees : Int) : Vec3 α :=
  let angle : α := (degrees : α)
  let angle := fm.radians angle
  let lightPosition : Vec3 α :=
    ⟨fm.cos (angle + (time * g.pointLightOrbitSpeed)) * g.pointLightOrbitRange,
     0,
     fm.sin (angle + (time * g.pointLightOrbitSpeed)) * g.pointLightOrbitRange⟩
  lightPosition.add g.pointLightOrbitCenter

/-- The colour chain of lines 219-233. -/
def pointLightColor {α : Type} [Ring α] (i : Int) : Vec3 α :=
  if Int.tmod (i + 1) 3 = 0 then
    ⟨1, 0, 0⟩
  else if Int.tmod (i + 1) 2 = 0 then
    ⟨0, 1, 0⟩
  else
    ⟨0, 0, 1⟩

/-- The calls of lines 235-249 for instance `i`, given the position and the
colour computed for it and the transform after line 246. -/
def iterationCalls {α μ : Type} (cam : Camera α μ) (getModelMatrix : Transform α → μ)
    (g : Globals α) (lightTransform : Transform α) (i : Int)
    (lightPosition color : Vec3 α) : List (GLCall α μ) :=
  [ .setUniform .litShader (.pointLights i ".position") (.vec3 lightPosition),
    .setUniform .litShader (.pointLights i ".light.color") (.vec3 color),
    .setUniform .litShader (.pointLights i ".light.intensity") (.float g._PointLight.light.intensity),
    .setUniform .litShader (.pointLights i ".constK") (.float g._PointLight.constK),
    .setUniform .litShader (.pointLights i ".linearK") (.float g._PointLight.linearK),
    .setUniform .litShader (.pointLights i ".quadraticK") (.float g._PointLight.quadraticK),
    .use .unlitShader,
    .setUniform .unlitShader (.plain "_Projection") (.mat4 cam.projectionMatrix),
    .setUniform .unlitShader (.plain "_View") (.mat4 cam.viewMatrix),
    .setUniform .unlitShader (.plain "_Model") (.mat4 (getModelMatrix lightTransform)),
    .setUniform .unlitShader (.plain "_Color") (.vec3 color),
    .draw .sphereMesh ]

/-- One evaluation of the loop body, lines 213-250, for instance `i`. -/
def pointLightBody {α μ : Type} [Ring α] (fm : FloatMath α) (cam : Camera α μ)
    (getModelMatrix : Transform α → μ) (time : α) (st : FrameState α) (i : Int) :
    Except FrameError (FrameState α × List (GLCall α μ)) := do
  let degrees ← angleDegrees st.globals.numPointLights i
  let lightPosition := orbitPosition fm st.globals time degrees
  let color : Vec3 α := pointLightColor i
  let lightTransform : Transform α := { st.lightTransform with position := lightPosition }
  pure ({ st with lightTransform := lightTransform },
        iterationCalls cam getModelMatrix st.globals lightTransform i lightPosition color)

/-- The `for` loop of line 212 from index `i` on: the guard
`i < numPointLights` is tested before every evaluation of the body, and
`fuel` bounds the number of evaluations. -/
def pointLightLoop {α μ : Type} [Ring α] (fm : FloatMath α) (cam : Camera α μ)
    (getModelMatrix : Transform α → μ) (time : α) :
    Nat → Int → FrameState α → Except FrameError (FrameState α × List (GLCall α μ))
  | 0, i, st =>
    if i < st.globals.numPointLights then .error .outOfFuel else .ok (st, [])
  | fuel + 1, i, st =>
    if i < st.globals.numPointLights then do
      let (st1, calls1) ← pointLightBody fm cam getModelMatrix time st i
      let (st2, calls2) ← pointLightLoop fm cam getModelMatrix time fuel (i + 1) st1
      pure (st2, calls1 ++ calls2)
    else .ok (st, [])

/-- The point-light stage, lines 212-252: the loop from `i = 0`, then
`litShader.use()` and the `lightCount` write. -/
def pointLightStage {α μ : Type} [Ring α] (fm : FloatMath α) (cam : Camera α μ)
    (getModelMatrix : Transform α → μ) (time : α) (st : FrameState α) :
    Except FrameError (FrameState α × List (GLCall α μ)) := do
  let (st1, calls) ←
    pointLightLoop fm cam getModelMatrix time st.globals.numPointLights.toNat 0 st
  pure (st1, calls ++
    [ .use .litShader,
      .setUniform .litShader (.plain "lightCount") (.int st1.globals.numPointLights) ])

/-! ## The whole packing of a frame (lines 204-270) -/

/-- Lines 204-210: the lit shader, the camera matrices, the directional light. -/
def directionalCalls {α μ : Type} (cam : Camera α μ) (g : Globals α) : List (GLCall α μ) :=
  [ .use .litShader,
    .setUniform .litShader (.plain "_Projection") (.mat4 cam.projectionMatrix),
    .setUniform .litShader (.plain "_View") (.mat4 cam.viewMatrix),
    .setUniform .litShader (.plain "_DirectionalLight.direction") (.vec3 g._DirectionalLight.direction),
    .setUniform .litShader (.plain "_DirectionalLight.light.intensity")
      (.float g._DirectionalLight.light.intensity),
    .setUniform .litShader (.plain "_DirectionalLight.light.color")
      (.vec3 g._DirectionalLight.light.color) ]

/-- Lines 255-270: the spot light, the material, the camera position. -/
def spotMaterialCalls {α μ : Type} (cam : Camera α μ) (g : Globals α) : List (GLCall α μ) :=
  [ .setUniform .litShader (.plain "_SpotLight.position") (.vec3 g._SpotLight.position),
    .setUniform .litShader (.plain "_SpotLight.direction") (.vec3 g._SpotLight.direction),
    .setUniform .litShader (.plain "_SpotLight.light.intensity")
      (.float g._SpotLight.light.intensity),
    .setUniform .litShader (.plain "_SpotLight.light.color") (.vec3 g._SpotLight.light.color),
    .setUniform .litShader (.plain "_SpotLight.range") (.float g._SpotLight.range),
    .setUniform .litShader (.plain "_SpotLight.innerAngle") (.float g._SpotLight.innerAngle),
    .setUniform .litShader (.plain "_SpotLight.outerAngle") (.float g._SpotLight.outerAngle),
    .setUniform .litShader (.plain "_SpotLight.angleFalloff") (.float g._SpotLight.angleFalloff),
    .setUniform .litShader (.plain "_Material.color") (.vec3 g._Material.color),
    .setUniform .litShader (.plain "_Material.ambientK") (.float g._Material.ambientK),
    .setUniform .litShader (.plain "_Material.diffuseK") (.float g._Material.diffuseK),
    .setUniform .litShader (.plain "_Material.specularK") (.float g._Material.specularK),
    .setUniform .litShader (.plain "_Material.shininess") (.float g._Material.shininess),
    .setUniform .litShader (.plain "_CameraPosition") (.vec3 cam.position) ]

/-- One frame's packing, lines 204-270, as a function of the state before
it, the camera and the time: the state after it and the calls made. -/
def packFrame {α μ : Type} [Ring α] (fm : FloatMath α) (cam : Camera α μ)
    (getModelMatrix : Transform α → μ) (time : α) (st : FrameState α) :
    Except FrameError (FrameState α × List (GLCall α μ)) := do
  let calls0 := directionalCalls cam st.globals
  let (st1, calls1) ← pointLightStage fm cam getModelMatrix time st
  pure (st1, calls0 ++ calls1 ++ spotMaterialCalls cam st1.globals)

/-! ## Observations on the calls of a frame -/

/-- The position line 217 leaves in `lightPosition` for instance `i` when
`numPointLights` is not zero. -/
def lightPositionAt {α : Type} [Ring α] (fm : FloatMath α) (g : Globals α) (time : α)
    (i : Int) : Vec3 α :=
  orbitPosition fm g time (Int.tdiv 360 g.numPointLights * i)

/-- The calls of one evaluation of the body for instance `i` when
`numPointLights` is not zero. -/
def bodyCalls {α μ : Type} [Ring α] (fm : FloatMath α) (cam : Camera α μ)
    (getModelMatrix : Transform α → μ) (time : α) (g : Globals α) (scale : Vec3 α)
    (i : Int) : List (GLCall α μ) :=
  iterationCalls cam getModelMatrix g ⟨lightPositionAt fm g time i, scale⟩ i
    (lightPositionAt fm g time i) (pointLightColor i)

/-- The lists `f i`, `f (i+1)`, ..., `f (i+k-1)` one after the other. -/
def concatFrom {β : Type} (f : Int → List β) : Nat → Int → List β
  | 0, _ => []
  | k + 1, i => f i ++ concatFrom f k (i + 1)

/-- The six writes of lines 235-240 to slot `i` of `_PointLights`. -/
def slotWrites {α μ : Type} (g : Globals α) (i : Int) (lightPosition color : Vec3 α) :
    List (GLCall α μ) :=
  [ .setUniform .litShader (.pointLights i ".position") (.vec3 lightPosition),
    .setUniform .litShader (.pointLights i ".light.color") (.vec3 color),
    .setUniform .litShader (.pointLights i ".light.intensity") (.float g._PointLight.light.intensity),
    .setUniform .litShader (.pointLights i ".constK") (.float g._PointLight.constK),
    .setUniform .litShader (.pointLights i ".linearK") (.float g._PointLight.linearK),
    .setUniform .litShader (.pointLights i ".quadraticK") (.float g._PointLight.quadraticK) ]

/-- The marker draw of lines 246-249: the model matrix of the transform moved
to `lightPosition`, the colour, and the draw of the sphere mesh. -/
def markerCalls {α μ : Type} (getModelMatrix : Transform α → μ) (scale : Vec3 α)
    (lightPosition color : Vec3 α) : List (GLCall α μ) :=
  [ .setUniform .unlitShader (.plain "_Model") (.mat4 (getModelMatrix ⟨lightPosition, scale⟩)),
    .setUniform .unlitShader (.plain "_Color") (.vec3 color),
    .draw .sphereMesh ]

/-- Is the call a write to a slot of `_PointLights`? -/
def GLCall.isSlotWrite {α μ : Type} : GLCall α μ → Bool
  | .setUniform _ (.pointLights _ _) _ => true
  | _ => false

/-- Is the call a write of `lightCount`? -/
def GLCall.isLightCountWrite {α μ : Type} : GLCall α μ → Bool
  | .setUniform _ (.plain name) _ => name == "lightCount"
  | _ => false

/-- Is the call part of a marker draw: a draw, or a write of `_Model` or
`_Color` on the unlit shader? -/
def GLCall.isMarkerCall {α μ : Type} : GLCall α μ → Bool
  | .draw _ => true
  | .setUniform .unlitShader (.plain name) _ => name == "_Model" || name == "_Color"
  | _ => false

/-- Does the call carry a position derived from the orbit: the `.position`
of a slot, or the marker's `_Model` matrix? -/
def GLCall.isOrbitPositionWrite {α μ : Type} : GLCall α μ → Bool
  | .setUniform _ (.pointLights _ suffix) _ => suffix == ".position"
  | .setUniform .unlitShader (.plain name) _ => name == "_Model"
  | _ => false

/-- Is the call a draw of a mesh? -/
def GLCall.isDraw {α μ : Type} : GLCall α μ → Bool
  | .draw _ => true
  | _ => false

/-- The call without the value it passes: which shader and uniform it
addresses, or which mesh it draws. -/
def GLCall.target {α μ : Type} : GLCall α μ → GLCall Unit Unit
  | .use s => .use s
  | .setUniform s name _ => .setUniform s name (.int 0)
  | .draw m => .draw m

/-- The `vec3` writes to the slots of `_PointLights`, in program order:
index, suffix and value. -/
def slotVec3Writes {α μ : Type} (calls : List (GLCall α μ)) : List (Int × String × Vec3 α) :=
  calls.filterMap fun c =>
    match c with
    | .setUniform .litShader (.pointLights i suffix) (.vec3 v) => some (i, suffix, v)
    | _ => none

/-- A model state for examples. -/
def sampleGlobals (α : Type) [Ring α] (n : Int) : Globals α :=
  { numPointLights := n,
    pointLightOrbitCenter := ⟨1, 0, 0⟩,
    pointLightOrbitRange := 5,
    pointLightOrbitSpeed := 1,
    _DirectionalLight := ⟨⟨0, 1, 0⟩, ⟨⟨0, 0, 0⟩, ⟨1, 1, 1⟩, 1⟩⟩,
    _PointLight := ⟨⟨0, 0, 0⟩, ⟨⟨0, 0, 0⟩, ⟨1, 1, 1⟩, 1⟩, 1, 0, 1⟩,
    _SpotLight := ⟨⟨0, 3, 0⟩, ⟨0, 1, 0⟩, ⟨⟨0, 0, 0⟩, ⟨1, 1, 1⟩, 1⟩, 30, 15, 30, 1⟩,
    _Material := ⟨⟨1, 1, 1⟩, 1, 1, 1, 8⟩ }

/-- A frame state for examples: the transform of lines 188-189 with the scale
doubled to stay in the integers. -/
def sampleState (α : Type) [Ring α] (n : Int) : FrameState α :=
  { globals := sampleGlobals α n, lightTransform := ⟨⟨0, 5, 0⟩, ⟨1, 1, 1⟩⟩ }

/-! ## The loop in closed form -/

theorem cDiv_of_ne_zero (a b : Int) (h : b ≠ 0) : cDiv a b = .ok (Int.tdiv a b) := by
  simp [cDiv, h]

theorem pointLightBody_of_ne_zero {α μ : Type} [Ring α] (fm : FloatMath α) (cam : Camera α μ)
    (getModelMatrix : Transform α → μ) (time : α) (st : FrameState α) (i : Int)
    (h : st.globals.numPointLights ≠ 0) :
    pointLightBody fm cam getModelMatrix time st i =
      .ok ({ st with lightTransform :=
               ⟨lightPositionAt fm st.globals time i, st.lightTransform.scale⟩ },
           bodyCalls fm cam getModelMatrix time st.globals st.lightTransform.scale i) := by
  simp [pointLightBody, angleDegrees, cDiv_of_ne_zero _ _ h, bodyCalls, lightPositionAt,
    bind, Except.bind, pure, Except.pure]

theorem pointLightLoop_closed {α μ : Type} [Ring α] (fm : FloatMath α) (cam : Camera α μ)
    (getModelMatrix : Transform α → μ) (time : α) :
    ∀ (fuel : Nat) (i : Int) (st : FrameState α), 0 ≤ i →
      (st.globals.numPointLights - i).toNat = fuel →
      ∃ st1, pointLightLoop fm cam getModelMatrix time fuel i st =
          .ok (st1, concatFrom
            (bodyCalls fm cam getModelMatrix time st.globals st.lightTransform.scale) fuel i) ∧
        st1.globals = st.globals ∧ st1.lightTransform.scale = st.lightTransform.scale := by
  intro fuel
  induction fuel with
  | zero =>
    intro i st _ hfuel
    have hle : ¬ i < st.globals.numPointLights := by omega
    exact ⟨st, by simp [pointLightLoop, hle, concatFrom], rfl, rfl⟩
  | succ k ih =>
    intro i st hi hfuel
    have hlt : i < st.globals.numPointLights := by omega
    have hne : st.globals.numPointLights ≠ 0 := by omega
    obtain ⟨st2, h2, hg, hs⟩ := ih (i + 1)
      { st with lightTransform :=
          ⟨lightPositionAt fm st.globals time i, st.lightTransform.scale⟩ }
      (by omega) (by simp only; omega)
    refine ⟨st2, ?_, hg, hs⟩
    simp only [pointLightLoop, hlt, if_true,
      pointLightBody_of_ne_zero fm cam getModelMatrix time st i hne, bind, Except.bind, h2,
      pure, Except.pure, concatFrom]

theorem concatFrom_eq_flatMap {β : Type} (f : Int → List β) :
    ∀ (k : Nat) (i : Int),
      concatFrom f k i = (List.range k).flatMap (fun j => f (i + (j : Int))) := by
  intro k
  induction k with
  | zero => intro i; simp [concatFrom]
  | succ k ih =>
    intro i
    rw [concatFrom, ih, List.range_succ_eq_map, List.flatMap_cons, List.flatMap_map]
    congr 1
    · simp
    · congr 1
      funext j
      simp only [Function.comp, Nat.succ_eq_add_one, Nat.cast_add, Nat.cast_one]
      congr 1
      omega

theorem pointLightStage_closed {α μ : Type} [Ring α] (fm : FloatMath α) (cam : Camera α μ)
    (getModelMatrix : Transform α → μ) (time : α) (st : FrameState α) :
    ∃ st1, pointLightStage fm cam getModelMatrix time st =
        .ok (st1,
          (List.range st.globals.numPointLights.toNat).flatMap
              (fun j => bodyCalls fm cam getModelMatrix time st.globals
                st.lightTransform.scale (j : Int)) ++
            [ .use .litShader,
              .setUniform .litShader (.plain "lightCount") (.int st.globals.numPointLights) ]) ∧
      st1.globals = st.globals ∧ st1.lightTransform.scale = st.lightTransform.scale := by
  obtain ⟨st1, h1, hg, hs⟩ := pointLightLoop_closed fm cam getModelMatrix time
    st.globals.numPointLights.toNat 0 st (le_refl 0) (by simp)
  refine ⟨st1, ?_, hg, hs⟩
  simp only [pointLightStage, h1, bind, Except.bind, pure, Except.pure, hg,
    concatFrom_eq_flatMap, zero_add]

theorem packFrame_closed {α μ : Type} [Ring α] (fm : FloatMath α) (cam : Camera α μ)
    (getModelMatrix : Transform α → μ) (time : α) (st : FrameState α) :
    ∃ st1, packFrame fm cam getModelMatrix time st =
        .ok (st1,
          directionalCalls cam st.globals ++
            ((List.range st.globals.numPointLights.toNat).flatMap
                (fun j => bodyCalls fm cam getModelMatrix time st.globals
                  st.lightTransform.scale (j : Int)) ++
              [ .use .litShader,
                .setUniform .litShader (.plain "lightCount")
                  (.int st.globals.numPointLights) ]) ++
            spotMaterialCalls cam st.globals) ∧
      st1.globals = st.globals ∧ st1.lightTransform.scale = st.lightTransform.scale := by
  obtain ⟨st1, h1, hg, hs⟩ := pointLightStage_closed fm cam getModelMatrix time st
  refine ⟨st1, ?_, hg, hs⟩
  simp only [packFrame, h1, bind, Except.bind, pure, Except.pure, hg]

/-- A write to slot `i` is among the calls of a frame exactly when `i` is an
index the loop visits and the write is one of the six of that iteration. -/
theorem mem_packFrame_slot {α μ : Type} [Ring α] (fm : FloatMath α) (cam : Camera α μ)
    (getModelMatrix : Transform α → μ) (time : α) (st st1 : FrameState α)
    (calls : List (GLCall α μ))
    (h : packFrame fm cam getModelMatrix time st = .ok (st1, calls))
    (s : ShaderId) (i : Int) (suffix : String) (v : UniformValue α μ) :
    GLCall.setUniform s (.pointLights i suffix) v ∈ calls ↔
      0 ≤ i ∧ i < st.globals.numPointLights ∧
        GLCall.setUniform s (.pointLights i suffix) v ∈
          (slotWrites st.globals i (lightPositionAt fm st.globals time i) (pointLightColor i) :
            List (GLCall α μ)) := by
  obtain ⟨st2, h2, -, -⟩ := packFrame_closed fm cam getModelMatrix time st
  rw [h2] at h
  injection h with h
  injection h with _ hc
  subst hc
  simp only [directionalCalls, spotMaterialCalls, bodyCalls, iterationCalls, slotWrites,
    List.mem_append, List.mem_flatMap, List.mem_range, List.mem_cons, List.mem_singleton,
    GLCall.setUniform.injEq, UniformName.pointLights.injEq, List.not_mem_nil, or_false,
    false_or, and_false, false_and, reduceCtorEq]
  constructor
  · rintro ⟨j, hj, hmem⟩
    have hij : i = (j : Int) := by
      rcases hmem with h | h | h | h | h | h <;> exact h.2.1.1
    subst hij
    exact ⟨by omega, by omega, by simpa using hmem⟩
  · rintro ⟨h0, hn, hmem⟩
    refine ⟨i.toNat, by omega, ?_⟩
    have hcast : ((i.toNat : Nat) : Int) = i := Int.toNat_of_nonneg h0
    rw [hcast]
    simpa using hmem

/-! ## The colour chain -/

theorem tmod_eq_zero_iff_dvd (a b : Int) : Int.tmod a b = 0 ↔ b ∣ a :=
  ⟨Int.dvd_of_tmod_eq_zero, Int.tmod_eq_zero_of_dvd⟩

theorem pointLightColor_eq_red_iff (i : Int) :
    (pointLightColor i : Vec3 ℝ) = ⟨1, 0, 0⟩ ↔ (3 : Int) ∣ i + 1 := by
  unfold pointLightColor
  by_cases h3 : Int.tmod (i + 1) 3 = 0
  · simp [h3, (tmod_eq_zero_iff_dvd _ _).1 h3]
  · have h3n : ¬ (3 : Int) ∣ i + 1 := fun h => h3 ((tmod_eq_zero_iff_dvd _ _).2 h)
    by_cases h2 : Int.tmod (i + 1) 2 = 0 <;> simp [h3, h2, h3n]

theorem pointLightColor_eq_green_iff (i : Int) :
    (pointLightColor i : Vec3 ℝ) = ⟨0, 1, 0⟩ ↔ ¬ (3 : Int) ∣ i + 1 ∧ (2 : Int) ∣ i + 1 := by
  unfold pointLightColor
  by_cases h3 : Int.tmod (i + 1) 3 = 0
  · simp [h3, (tmod_eq_zero_iff_dvd _ _).1 h3]
  · have h3n : ¬ (3 : Int) ∣ i + 1 := fun h => h3 ((tmod_eq_zero_iff_dvd _ _).2 h)
    by_cases h2 : Int.tmod (i + 1) 2 = 0
    · simp [h3, h2, h3n, (tmod_eq_zero_iff_dvd _ _).1 h2]
    · have h2n : ¬ (2 : Int) ∣ i + 1 := fun h => h2 ((tmod_eq_zero_iff_dvd _ _).2 h)
      simp [h3, h2, h3n, h2n]

theorem pointLightColor_eq_blue_iff (i : Int) :
    (pointLightColor i : Vec3 ℝ) = ⟨0, 0, 1⟩ ↔ ¬ (3 : Int) ∣ i + 1 ∧ ¬ (2 : Int) ∣ i + 1 := by
  unfold pointLightColor
  by_cases h3 : Int.tmod (i + 1) 3 = 0
  · simp [h3, (tmod_eq_zero_iff_dvd _ _).1 h3]
  · have h3n : ¬ (3 : Int) ∣ i + 1 := fun h => h3 ((tmod_eq_zero_iff_dvd _ _).2 h)
    by_cases h2 : Int.tmod (i + 1) 2 = 0
    · simp [h3, h2, h3n, (tmod_eq_zero_iff_dvd _ _).1 h2]
    · have h2n : ¬ (2 : Int) ∣ i + 1 := fun h => h2 ((tmod_eq_zero_iff_dvd _ _).2 h)
      simp [h3, h2, h3n, h2n]

/-- C1, as stated, fails: the colours the chain of lines 219-233 gives to
`i = 0, ..., 9` are not blue, green, red, blue, green, red, blue, green, red,
blue (index 3 is green, since `4 % 3 != 0` and `4 % 2 == 0`). -/
theorem C1_colors_not_period_three :
    ¬ ((List.range 10).map (fun k => (pointLightColor (k : Int) : Vec3 ℝ)) =
      [⟨0, 0, 1⟩, ⟨0, 1, 0⟩, ⟨1, 0, 0⟩, ⟨0, 0, 1⟩, ⟨0, 1, 0⟩,
       ⟨1, 0, 0⟩, ⟨0, 0, 1⟩, ⟨0, 1, 0⟩, ⟨1, 0, 0⟩, ⟨0, 0, 1⟩]) := by
  simp +decide [List.range, List.range.loop, pointLightColor]

/-- C1, amended: the colours the chain of lines 219-233 gives to
`i = 0, ..., 9` are blue, green, red, green, blue, red, blue, green, red,
green. -/
theorem C1_colors_first_ten :
    (List.range 10).map (fun k => (pointLightColor (k : Int) : Vec3 ℝ)) =
      [⟨0, 0, 1⟩, ⟨0, 1, 0⟩, ⟨1, 0, 0⟩, ⟨0, 1, 0⟩, ⟨0, 0, 1⟩,
       ⟨1, 0, 0⟩, ⟨0, 0, 1⟩, ⟨0, 1, 0⟩, ⟨1, 0, 0⟩, ⟨0, 1, 0⟩] := by
  simp +decide [List.range, List.range.loop, pointLightColor]

/-- C2: for every index `i` the loop visits (`0 <= i < numPointLights`), the
frame writes exactly one colour to slot `i`, and it is a function of `i`
alone, whatever the model, the camera and the time: red iff 3 divides `i+1`,
green iff 3 does not and 2 does, blue iff neither does.  Index 0 is blue,
1 green, 2 red, and 5 red, not green. -/
theorem C2_color_chain {μ : Type} (fm : FloatMath ℝ) (cam : Camera ℝ μ)
    (getModelMatrix : Transform ℝ → μ) (time : ℝ) (st : FrameState ℝ) (i : Int)
    (h0 : 0 ≤ i) (hn : i < st.globals.numPointLights) :
    (∃ st1 calls, packFrame fm cam getModelMatrix time st = .ok (st1, calls) ∧
      ∀ c : Vec3 ℝ,
        GLCall.setUniform .litShader (.pointLights i ".light.color") (.vec3 c) ∈ calls ↔
          c = pointLightColor i) ∧
    ((pointLightColor i : Vec3 ℝ) = ⟨1, 0, 0⟩ ↔ (3 : Int) ∣ i + 1) ∧
    ((pointLightColor i : Vec3 ℝ) = ⟨0, 1, 0⟩ ↔ ¬ (3 : Int) ∣ i + 1 ∧ (2 : Int) ∣ i + 1) ∧
    ((pointLightColor i : Vec3 ℝ) = ⟨0, 0, 1⟩ ↔ ¬ (3 : Int) ∣ i + 1 ∧ ¬ (2 : Int) ∣ i + 1) ∧
    (pointLightColor 0 : Vec3 ℝ) = ⟨0, 0, 1⟩ ∧
    (pointLightColor 1 : Vec3 ℝ) = ⟨0, 1, 0⟩ ∧
    (pointLightColor 2 : Vec3 ℝ) = ⟨1, 0, 0⟩ ∧
    (pointLightColor 5 : Vec3 ℝ) = ⟨1, 0, 0⟩ ∧
    (pointLightColor 5 : Vec3 ℝ) ≠ ⟨0, 1, 0⟩ := by
  refine ⟨?_, pointLightColor_eq_red_iff i, pointLightColor_eq_green_iff i,
    pointLightColor_eq_blue_iff i, ?_, ?_, ?_, ?_, ?_⟩
  · obtain ⟨st1, h1, -, -⟩ := packFrame_closed fm cam getModelMatrix time st
    refine ⟨st1, _, h1, fun c => ?_⟩
    rw [mem_packFrame_slot fm cam getModelMatrix time st st1 _ h1]
    simp [slotWrites, h0, hn]
  all_goals simp +decide [pointLightColor]

/-- C2 at index 5 of a state with six point lights. -/
theorem C2_color_chain_witness :
    (0 : Int) ≤ 5 ∧ (5 : Int) < (sampleState ℝ 6).globals.numPointLights ∧
      ((pointLightColor 5 : Vec3 ℝ) = ⟨1, 0, 0⟩ ↔ (3 : Int) ∣ 5 + 1) :=
  ⟨by decide, by decide,
    (C2_color_chain (μ := Unit) ⟨fun a => a, fun a => a, fun a => a⟩ ⟨(), (), ⟨0, 0, 0⟩⟩
      (fun _ => ()) 0 (sampleState ℝ 6) 5 (by decide) (by decide)).2.1⟩

/-! ## The angle step -/

/-- C3 at `numPointLights = 7`: line 214 computes 0 degrees for instance 0 and
51 degrees for instance 1, a step of -51, and -51 is not congruent to the
exact quotient -360/7 modulo 360.  For every other count from 1 to 8 the
step is the exact quotient. -/
theorem C3_angle_step_at_seven :
    angleDegrees 7 0 = .ok 0 ∧ angleDegrees 7 1 = .ok 51 ∧
    (¬ ∃ k : Int, ((0 : Int) : ℚ) - ((51 : Int) : ℚ) = -(360 / 7) + 360 * (k : ℚ)) ∧
    (∀ n i : Int, 1 ≤ n → n ≤ 8 → n ≠ 7 →
      ∃ a b : Int, angleDegrees n i = .ok a ∧ angleDegrees n (i + 1) = .ok b ∧
        (a : ℚ) - (b : ℚ) = -(360 / (n : ℚ))) := by
  refine ⟨rfl, rfl, ?_, ?_⟩
  · rintro ⟨k, hk⟩
    have h7 : (7 : ℚ) * (((0 : Int) : ℚ) - ((51 : Int) : ℚ)) =
        7 * (-(360 / 7) + 360 * (k : ℚ)) := by rw [hk]
    have h : ((-357 : Int) : ℚ) = ((-360 + 2520 * k : Int) : ℚ) := by
      push_cast
      push_cast at h7
      linarith
    have hint : (-357 : Int) = -360 + 2520 * k := by exact_mod_cast h
    omega
  · intro n i h1 h8 h7
    have hne : n ≠ 0 := by omega
    refine ⟨Int.tdiv 360 n * i, Int.tdiv 360 n * (i + 1), ?_, ?_, ?_⟩
    · simp [angleDegrees, cDiv_of_ne_zero _ _ hne, bind, Except.bind, pure, Except.pure]
    · simp [angleDegrees, cDiv_of_ne_zero _ _ hne, bind, Except.bind, pure, Except.pure]
    · have hcases : n = 1 ∨ n = 2 ∨ n = 3 ∨ n = 4 ∨ n = 5 ∨ n = 6 ∨ n = 8 := by omega
      rcases hcases with h | h | h | h | h | h | h <;> subst h <;>
        simp +decide only [show Int.tdiv 360 1 = 360 by decide,
          show Int.tdiv 360 2 = 180 by decide, show Int.tdiv 360 3 = 120 by decide,
          show Int.tdiv 360 4 = 90 by decide, show Int.tdiv 360 5 = 72 by decide,
          show Int.tdiv 360 6 = 60 by decide, show Int.tdiv 360 8 = 45 by decide] <;>
        push_cast <;> ring

/-! ## No point lights -/

/-- C4: when `numPointLights == 0` the loop returns at once, whatever the
fuel, with no call made and the state untouched; every evaluation of the body
would fail on the division by zero, so none is made; the stage succeeds and
its only calls are `litShader.use()` and `lightCount = 0`; and the whole frame
has no slot write, no marker call, and the single `lightCount` write 0. -/
theorem C4_no_lights_no_body {α μ : Type} [Ring α] (fm : FloatMath α) (cam : Camera α μ)
    (getModelMatrix : Transform α → μ) (time : α) (st : FrameState α)
    (h : st.globals.numPointLights = 0) :
    (∀ fuel, pointLightLoop fm cam getModelMatrix time fuel 0 st = .ok (st, [])) ∧
    (∀ i, pointLightBody fm cam getModelMatrix time st i = .error .divisionByZero) ∧
    pointLightStage fm cam getModelMatrix time st =
      .ok (st, [ .use .litShader, .setUniform .litShader (.plain "lightCount") (.int 0) ]) ∧
    ∃ calls, packFrame fm cam getModelMatrix time st = .ok (st, calls) ∧
      calls.filter GLCall.isSlotWrite = [] ∧
      calls.filter GLCall.isMarkerCall = [] ∧
      calls.filter GLCall.isLightCountWrite =
        [ .setUniform .litShader (.plain "lightCount") (.int 0) ] := by
  have hloop : ∀ fuel, pointLightLoop fm cam getModelMatrix time fuel 0 st = .ok (st, []) := by
    intro fuel
    cases fuel <;> simp [pointLightLoop, h]
  have hstage : pointLightStage fm cam getModelMatrix time st =
      .ok (st, [ .use .litShader, .setUniform .litShader (.plain "lightCount") (.int 0) ]) := by
    simp [pointLightStage, h, hloop, bind, Except.bind, pure, Except.pure]
  refine ⟨hloop, ?_, hstage, ?_⟩
  · intro i
    simp [pointLightBody, angleDegrees, cDiv, h, bind, Except.bind]
  · refine ⟨_, by simp only [packFrame, hstage, bind, Except.bind, pure, Except.pure]; rfl,
      ?_, ?_, ?_⟩ <;>
    simp +decide [directionalCalls, spotMaterialCalls, List.filter, GLCall.isSlotWrite,
      GLCall.isMarkerCall, GLCall.isLightCountWrite]

/-- C4 at a state with no point lights. -/
theorem C4_no_lights_no_body_witness :
    (sampleState Int 0).globals.numPointLights = 0 ∧
      pointLightStage (μ := Unit) ⟨fun a => a, fun a => a, fun a => a⟩ ⟨(), (), ⟨0, 0, 0⟩⟩
          (fun _ => ()) 0 (sampleState Int 0) =
        .ok (sampleState Int 0,
          [ .use .litShader, .setUniform .litShader (.plain "lightCount") (.int 0) ]) :=
  ⟨rfl, (C4_no_lights_no_body (μ := Unit) ⟨fun a => a, fun a => a, fun a => a⟩
    ⟨(), (), ⟨0, 0, 0⟩⟩ (fun _ => ()) 0 (sampleState Int 0) rfl).2.2.1⟩

/-! ## What a frame packs -/

theorem filter_isSlotWrite_bodyCalls {α μ : Type} [Ring α] (fm : FloatMath α)
    (cam : Camera α μ) (getModelMatrix : Transform α → μ) (time : α) (g : Globals α)
    (scale : Vec3 α) (i : Int) :
    (bodyCalls fm cam getModelMatrix time g scale i).filter GLCall.isSlotWrite =
      slotWrites g i (lightPositionAt fm g time i) (pointLightColor i) := by
  simp [bodyCalls, iterationCalls, slotWrites, List.filter, GLCall.isSlotWrite]

theorem filter_isMarkerCall_bodyCalls {α μ : Type} [Ring α] (fm : FloatMath α)
    (cam : Camera α μ) (getModelMatrix : Transform α → μ) (time : α) (g : Globals α)
    (scale : Vec3 α) (i : Int) :
    (bodyCalls fm cam getModelMatrix time g scale i).filter GLCall.isMarkerCall =
      markerCalls getModelMatrix scale (lightPositionAt fm g time i) (pointLightColor i) := by
  simp +decide [bodyCalls, iterationCalls, markerCalls, List.filter, GLCall.isMarkerCall]

theorem filter_isLightCountWrite_bodyCalls {α μ : Type} [Ring α] (fm : FloatMath α)
    (cam : Camera α μ) (getModelMatrix : Transform α → μ) (time : α) (g : Globals α)
    (scale : Vec3 α) (i : Int) :
    (bodyCalls fm cam getModelMatrix time g scale i).filter GLCall.isLightCountWrite = [] := by
  simp +decide [bodyCalls, iterationCalls, List.filter, GLCall.isLightCountWrite]

theorem filter_isDraw_bodyCalls {α μ : Type} [Ring α] (fm : FloatMath α)
    (cam : Camera α μ) (getModelMatrix : Transform α → μ) (time : α) (g : Globals α)
    (scale : Vec3 α) (i : Int) :
    (bodyCalls fm cam getModelMatrix time g scale i).filter GLCall.isDraw =
      [.draw .sphereMesh] := by
  simp [bodyCalls, iterationCalls, List.filter, GLCall.isDraw]

theorem length_flatMap_singleton {β γ : Type} (c : γ) :
    ∀ l : List β, (l.flatMap (fun _ => [c])).length = l.length := by
  intro l
  induction l with
  | nil => rfl
  | cons a l ih => simp [List.flatMap_cons, ih]

/-- C7: with `numPointLights = n >= 0`, the writes a frame makes to the slots
of `_PointLights` are, in order, those of the indices `0, ..., n-1` and no
other: for each `i` the position and colour computed for `i`, and the
intensity, `constK`, `linearK` and `quadraticK` of the one template
`_PointLight`; no slot index outside `[0, n)` is written; the one `lightCount`
write carries `n`; and the marker calls are, in order, for each `i` the model
matrix of the transform moved to the position packed for slot `i`, the colour
packed for slot `i`, and a draw of the sphere mesh, `n` draws in all. -/
theorem C7_slots_count_markers {α μ : Type} [Ring α] (fm : FloatMath α) (cam : Camera α μ)
    (getModelMatrix : Transform α → μ) (time : α) (st : FrameState α)
    (hn : 0 ≤ st.globals.numPointLights) :
    ∃ st1 calls, packFrame fm cam getModelMatrix time st = .ok (st1, calls) ∧
      calls.filter GLCall.isSlotWrite =
        (List.range st.globals.numPointLights.toNat).flatMap (fun k =>
          slotWrites st.globals (k : Int) (lightPositionAt fm st.globals time (k : Int))
            (pointLightColor (k : Int))) ∧
      (∀ s j suffix v, GLCall.setUniform s (.pointLights j suffix) v ∈ calls →
        0 ≤ j ∧ j < st.globals.numPointLights) ∧
      calls.filter GLCall.isLightCountWrite =
        [ .setUniform .litShader (.plain "lightCount") (.int st.globals.numPointLights) ] ∧
      calls.filter GLCall.isMarkerCall =
        (List.range st.globals.numPointLights.toNat).flatMap (fun k =>
          markerCalls getModelMatrix st.lightTransform.scale
            (lightPositionAt fm st.globals time (k : Int)) (pointLightColor (k : Int))) ∧
      ((calls.filter GLCall.isDraw).length : Int) = st.globals.numPointLights := by
  obtain ⟨st1, h1, -, -⟩ := packFrame_closed fm cam getModelMatrix time st
  refine ⟨st1, _, h1, ?_, ?_, ?_, ?_, ?_⟩
  · simp only [List.filter_append, List.filter_flatMap, filter_isSlotWrite_bodyCalls]
    simp [directionalCalls, spotMaterialCalls, List.filter, GLCall.isSlotWrite]
  · intro s j suffix v hmem
    have := (mem_packFrame_slot fm cam getModelMatrix time st st1 _ h1 s j suffix v).1 hmem
    exact ⟨this.1, this.2.1⟩
  · simp only [List.filter_append, List.filter_flatMap, filter_isLightCountWrite_bodyCalls]
    simp +decide [directionalCalls, spotMaterialCalls, List.filter, GLCall.isLightCountWrite]
  · simp only [List.filter_append, List.filter_flatMap, filter_isMarkerCall_bodyCalls]
    simp +decide [directionalCalls, spotMaterialCalls, List.filter, GLCall.isMarkerCall]
  · simp only [List.filter_append, List.filter_flatMap, filter_isDraw_bodyCalls]
    simp only [directionalCalls, spotMaterialCalls, List.filter, GLCall.isDraw,
      List.length_append, List.length_nil, length_flatMap_singleton, List.length_range,
      zero_add, add_zero]
    exact Int.toNat_of_nonneg hn

/-- C7 at a state with two point lights. -/
theorem C7_slots_count_markers_witness :
    (0 : Int) ≤ (sampleState Int 2).globals.numPointLights ∧
      ∃ st1 calls,
        packFrame (μ := Unit) ⟨fun a => a, fun a => a, fun a => a⟩ ⟨(), (), ⟨0, 0, 0⟩⟩
          (fun _ => ()) 0 (sampleState Int 2) = .ok (st1, calls) ∧
        ((calls.filter GLCall.isDraw).length : Int) = 2 := by
  refine ⟨by decide, ?_⟩
  obtain ⟨st1, calls, h, -, -, -, -, hd⟩ :=
    C7_slots_count_markers (μ := Unit) ⟨fun a => a, fun a => a, fun a => a⟩
      ⟨(), (), ⟨0, 0, 0⟩⟩ (fun _ => ()) 0 (sampleState Int 2) (by decide)
  exact ⟨st1, calls, h, hd⟩

/-- C8: one frame's packing always returns; it leaves every global of the
model as it found it; and run again on the state it left, with the same
camera and time, it makes the same calls, name for name and value for value
(the position of `lightTransform`, the one thing a frame changes, is
overwritten before it is read). -/
theorem C8_packing_idempotent {α μ : Type} [Ring α] (fm : FloatMath α) (cam : Camera α μ)
    (getModelMatrix : Transform α → μ) (time : α) (st : FrameState α) :
    ∃ st1 calls, packFrame fm cam getModelMatrix time st = .ok (st1, calls) ∧
      st1.globals = st.globals ∧
      ∃ st2, packFrame fm cam getModelMatrix time st1 = .ok (st2, calls) ∧
        st2.globals = st.globals := by
  obtain ⟨st1, h1, hg1, hs1⟩ := packFrame_closed fm cam getModelMatrix time st
  obtain ⟨st2, h2, hg2, -⟩ := packFrame_closed fm cam getModelMatrix time st1
  rw [hg1, hs1] at h2
  exact ⟨st1, _, h1, hg1, st2, h2, hg2.trans hg1⟩

/-- C9: two states that differ only in `pointLightOrbitSpeed` make, at the
same time and camera, calls that address the same shaders, uniforms and
meshes in the same order, and the calls other than the slot `.position`
writes and the marker `_Model` writes are equal, value for value: the
`lightCount`, every slot's intensity, `constK`, `linearK`, `quadraticK` and
colour, and the directional-light, spot-light and material parameters. -/
theorem C9_speed_independence {α μ : Type} [Ring α] (fm : FloatMath α) (cam : Camera α μ)
    (getModelMatrix : Transform α → μ) (time : α) (st : FrameState α) (speed : α) :
    ∃ st1 calls1 st2 calls2,
      packFrame fm cam getModelMatrix time st = .ok (st1, calls1) ∧
      packFrame fm cam getModelMatrix time
          { st with globals := { st.globals with pointLightOrbitSpeed := speed } } =
        .ok (st2, calls2) ∧
      calls1.filter (fun c => !c.isOrbitPositionWrite) =
        calls2.filter (fun c => !c.isOrbitPositionWrite) ∧
      calls1.map GLCall.target = calls2.map GLCall.target := by
  obtain ⟨st1, h1, -, -⟩ := packFrame_closed fm cam getModelMatrix time st
  obtain ⟨st2, h2, -, -⟩ := packFrame_closed fm cam getModelMatrix time
    { st with globals := { st.globals with pointLightOrbitSpeed := speed } }
  refine ⟨st1, _, st2, _, h1, h2, ?_, ?_⟩
  · simp only [List.filter_append, List.filter_flatMap]
    simp +decide [directionalCalls, spotMaterialCalls, bodyCalls, iterationCalls, List.filter,
      GLCall.isOrbitPositionWrite]
  · simp only [List.map_append, List.map_flatMap]
    simp [directionalCalls, spotMaterialCalls, bodyCalls, iterationCalls, GLCall.target]

/-! ## Orbit positions over the real numbers -/

theorem lightPositionAt_real (g : Globals ℝ) (time : ℝ) (i : Int) :
    lightPositionAt ⟨Real.cos, Real.sin, fun d => d * (Real.pi / 180)⟩ g time i =
      ⟨Real.cos (((Int.tdiv 360 g.numPointLights * i : Int) : ℝ) * (Real.pi / 180) +
            time * g.pointLightOrbitSpeed) * g.pointLightOrbitRange +
          g.pointLightOrbitCenter.x,
        0 + g.pointLightOrbitCenter.y,
        Real.sin (((Int.tdiv 360 g.numPointLights * i : Int) : ℝ) * (Real.pi / 180) +
            time * g.pointLightOrbitSpeed) * g.pointLightOrbitRange +
          g.pointLightOrbitCenter.z⟩ := rfl

theorem cos_two_pi_div_three : Real.cos (2 * Real.pi / 3) = -(1 / 2) := by
  have h : (2 * Real.pi / 3) = Real.pi - Real.pi / 3 := by ring
  rw [h, Real.cos_pi_sub, Real.cos_pi_div_three]

theorem sin_two_pi_div_three : Real.sin (2 * Real.pi / 3) = Real.sqrt 3 / 2 := by
  have h : (2 * Real.pi / 3) = Real.pi - Real.pi / 3 := by ring
  rw [h, Real.sin_pi_sub, Real.sin_pi_div_three]

theorem cos_four_pi_div_three : Real.cos (4 * Real.pi / 3) = -(1 / 2) := by
  have h : (4 * Real.pi / 3) = Real.pi / 3 + Real.pi := by ring
  rw [h, Real.cos_add_pi, Real.cos_pi_div_three]

theorem sin_four_pi_div_three : Real.sin (4 * Real.pi / 3) = -(Real.sqrt 3 / 2) := by
  have h : (4 * Real.pi / 3) = Real.pi / 3 + Real.pi := by ring
  rw [h, Real.sin_add_pi, Real.sin_pi_div_three]

/-- C5: with three point lights, orbit radius 5, orbit centre (1,0,0), any
orbit speed, at time 0 and with real cosine and sine, the integer angles of
instances 1 and 2 are 120 and 240 degrees and the stage writes, in order,
position (6,0,0) and colour blue to slot 0, position
(-3/2, 0, 5*sqrt(3)/2) and colour green to slot 1, and position
(-3/2, 0, -5*sqrt(3)/2) and colour red to slot 2, where 5*sqrt(3)/2 is 4.33
to two decimals. -/
theorem C5_three_lights_scenario {μ : Type} (cam : Camera ℝ μ)
    (getModelMatrix : Transform ℝ → μ) (g : Globals ℝ) (lightTransform : Transform ℝ)
    (speed : ℝ) :
    angleDegrees 3 1 = .ok 120 ∧ angleDegrees 3 2 = .ok 240 ∧
    (∃ st1 calls,
      pointLightStage ⟨Real.cos, Real.sin, fun d => d * (Real.pi / 180)⟩ cam getModelMatrix 0
          ⟨{ g with numPointLights := 3, pointLightOrbitRange := 5,
                    pointLightOrbitCenter := ⟨1, 0, 0⟩, pointLightOrbitSpeed := speed },
            lightTransform⟩ = .ok (st1, calls) ∧
      slotVec3Writes calls =
        [ (0, ".position", ⟨6, 0, 0⟩), (0, ".light.color", ⟨0, 0, 1⟩),
          (1, ".position", ⟨-(3 / 2), 0, 5 * Real.sqrt 3 / 2⟩), (1, ".light.color", ⟨0, 1, 0⟩),
          (2, ".position", ⟨-(3 / 2), 0, -(5 * Real.sqrt 3 / 2)⟩),
          (2, ".light.color", ⟨1, 0, 0⟩) ]) ∧
    |5 * Real.sqrt 3 / 2 - 4.33| < 0.005 := by
  refine ⟨rfl, rfl, ?_, ?_⟩
  · obtain ⟨st1, h1, -, -⟩ := pointLightStage_closed
      ⟨Real.cos, Real.sin, fun d => d * (Real.pi / 180)⟩ cam getModelMatrix 0
      ⟨{ g with numPointLights := 3, pointLightOrbitRange := 5,
                pointLightOrbitCenter := ⟨1, 0, 0⟩, pointLightOrbitSpeed := speed },
        lightTransform⟩
    refine ⟨st1, _, h1, ?_⟩
    have e1 : ((120 : ℝ) * (Real.pi / 180)) = 2 * Real.pi / 3 := by ring
    have e2 : ((240 : ℝ) * (Real.pi / 180)) = 4 * Real.pi / 3 := by ring
    have q : Int.tdiv 360 3 = 120 := by decide
    simp only [show (3 : Int).toNat = 3 from rfl, List.range, List.range.loop,
      List.flatMap_cons, List.flatMap_nil, bodyCalls, iterationCalls, lightPositionAt_real, q,
      slotVec3Writes, List.filterMap, List.append, List.cons_append, List.nil_append,
      List.append_nil, Nat.cast_zero, Nat.cast_one, Nat.cast_ofNat]
    simp +decide [pointLightColor, e1, e2, cos_two_pi_div_three, sin_two_pi_div_three,
      cos_four_pi_div_three, sin_four_pi_div_three]
    refine ⟨by norm_num, by norm_num, by ring⟩
  · have hs : Real.sqrt 3 * Real.sqrt 3 = 3 := Real.mul_self_sqrt (by norm_num)
    have hpos : 0 ≤ Real.sqrt 3 := Real.sqrt_nonneg 3
    rw [abs_lt]
    constructor <;> nlinarith

/-- C6: with real cosine and sine, for every `numPointLights = n >= 1`, at
time 0 with orbit centre (0,0,0), orbit radius 2 and orbit speed 1, the frame
writes to the position of slot 0 the value (2,0,0) and no other. -/
theorem C6_first_light_at_time_zero {μ : Type} (cam : Camera ℝ μ)
    (getModelMatrix : Transform ℝ → μ) (g : Globals ℝ) (lightTransform : Transform ℝ)
    (n : Int) (hn : 1 ≤ n) :
    ∃ st1 calls,
      packFrame ⟨Real.cos, Real.sin, fun d => d * (Real.pi / 180)⟩ cam getModelMatrix 0
          ⟨{ g with numPointLights := n, pointLightOrbitCenter := ⟨0, 0, 0⟩,
                    pointLightOrbitRange := 2, pointLightOrbitSpeed := 1 },
            lightTransform⟩ = .ok (st1, calls) ∧
      ∀ p : Vec3 ℝ,
        GLCall.setUniform .litShader (.pointLights 0 ".position") (.vec3 p) ∈ calls ↔
          p = ⟨2, 0, 0⟩ := by
  obtain ⟨st1, h1, -, -⟩ := packFrame_closed
    ⟨Real.cos, Real.sin, fun d => d * (Real.pi / 180)⟩ cam getModelMatrix 0
    ⟨{ g with numPointLights := n, pointLightOrbitCenter := ⟨0, 0, 0⟩,
              pointLightOrbitRange := 2, pointLightOrbitSpeed := 1 },
      lightTransform⟩
  refine ⟨st1, _, h1, fun p => ?_⟩
  rw [mem_packFrame_slot _ cam getModelMatrix 0 _ st1 _ h1]
  have hpos : (0 : Int) < n := by omega
  simp [slotWrites, lightPositionAt_real, hpos]

/-- C6 with three point lights. -/
theorem C6_first_light_at_time_zero_witness :
    (1 : Int) ≤ 3 ∧
      ∃ st1 calls,
        packFrame (μ := Unit) ⟨Real.cos, Real.sin, fun d => d * (Real.pi / 180)⟩
            ⟨(), (), ⟨0, 0, 0⟩⟩ (fun _ => ()) 0
            ⟨{ (sampleGlobals ℝ 0) with
                  numPointLights := 3, pointLightOrbitCenter := ⟨0, 0, 0⟩,
                  pointLightOrbitRange := 2, pointLightOrbitSpeed := 1 },
              ⟨⟨0, 5, 0⟩, ⟨1, 1, 1⟩⟩⟩ = .ok (st1, calls) ∧
        ∀ p : Vec3 ℝ,
          GLCall.setUniform .litShader (.pointLights 0 ".position") (.vec3 p) ∈ calls ↔
            p = ⟨2, 0, 0⟩ :=
  ⟨by decide,
    C6_first_light_at_time_zero (μ := Unit) ⟨(), (), ⟨0, 0, 0⟩⟩ (fun _ => ())
      (sampleGlobals ℝ 0) ⟨⟨0, 5, 0⟩, ⟨1, 1, 1⟩⟩ 3 (by decide)⟩

/-- C10: with real cosine and sine, for every index `i` the loop visits
(`0 <= i < numPointLights`, so `numPointLights >= 1`), every time, speed,
radius `r` and centre `c`, the frame writes a position to slot `i`, and every
position `p` it writes there has `p.y = c.y` and
`(p.x - c.x)^2 + (p.z - c.z)^2 = r^2`. -/
theorem C10_position_on_orbit_circle {μ : Type} (cam : Camera ℝ μ)
    (getModelMatrix : Transform ℝ → μ) (time : ℝ) (st : FrameState ℝ) (i : Int)
    (h0 : 0 ≤ i) (hn : i < st.globals.numPointLights) :
    ∃ st1 calls,
      packFrame ⟨Real.cos, Real.sin, fun d => d * (Real.pi / 180)⟩ cam getModelMatrix time st =
        .ok (st1, calls) ∧
      (∃ p : Vec3 ℝ,
        GLCall.setUniform .litShader (.pointLights i ".position") (.vec3 p) ∈ calls) ∧
      ∀ p : Vec3 ℝ,
        GLCall.setUniform .litShader (.pointLights i ".position") (.vec3 p) ∈ calls →
          p.y = st.globals.pointLightOrbitCenter.y ∧
          (p.x - st.globals.pointLightOrbitCenter.x) ^ 2 +
              (p.z - st.globals.pointLightOrbitCenter.z) ^ 2 =
            st.globals.pointLightOrbitRange ^ 2 := by
  obtain ⟨st1, h1, -, -⟩ := packFrame_closed
    ⟨Real.cos, Real.sin, fun d => d * (Real.pi / 180)⟩ cam getModelMatrix time st
  have hmem := mem_packFrame_slot _ cam getModelMatrix time st st1 _ h1 .litShader i
    ".position"
  refine ⟨st1, _, h1,
    ⟨lightPositionAt ⟨Real.cos, Real.sin, fun d => d * (Real.pi / 180)⟩ st.globals time i,
      (hmem _).2 ⟨h0, hn, by simp [slotWrites]⟩⟩, fun p hp => ?_⟩
  have hp2 := ((hmem _).1 hp).2.2
  simp only [slotWrites, List.mem_cons, GLCall.setUniform.injEq, UniformName.pointLights.injEq,
    UniformValue.vec3.injEq, true_and, List.mem_singleton, reduceCtorEq, and_false,
    List.not_mem_nil, or_false] at hp2
  have hp3 : p = lightPositionAt ⟨Real.cos, Real.sin, fun d => d * (Real.pi / 180)⟩
      st.globals time i := by
    rcases hp2 with h | h
    · exact h
    · exact absurd h.1 (by decide)
  rw [hp3, lightPositionAt_real]
  refine ⟨by simp, ?_⟩
  simp only [add_sub_cancel_right]
  have hcs := Real.cos_sq_add_sin_sq
    (((Int.tdiv 360 st.globals.numPointLights * i : Int) : ℝ) * (Real.pi / 180) +
      time * st.globals.pointLightOrbitSpeed)
  rw [mul_pow, mul_pow, ← add_mul, hcs, one_mul]

/-- C10 at index 1 of a state with three point lights. -/
theorem C10_position_on_orbit_circle_witness :
    (0 : Int) ≤ 1 ∧ (1 : Int) < (sampleState ℝ 3).globals.numPointLights ∧
      ∃ st1 calls,
        packFrame (μ := Unit) ⟨Real.cos, Real.sin, fun d => d * (Real.pi / 180)⟩
            ⟨(), (), ⟨0, 0, 0⟩⟩ (fun _ => ()) 2 (sampleState ℝ 3) = .ok (st1, calls) ∧
        ∀ p : Vec3 ℝ,
          GLCall.setUniform .litShader (.pointLights 1 ".position") (.vec3 p) ∈ calls →
            p.y = 0 ∧ (p.x - 1) ^ 2 + (p.z - 0) ^ 2 = (5 : ℝ) ^ 2 := by
  refine ⟨by decide, by decide, ?_⟩
  obtain ⟨st1, calls, h, -, hp⟩ :=
    C10_position_on_orbit_circle (μ := Unit) ⟨(), (), ⟨0, 0, 0⟩⟩ (fun _ => ()) 2
      (sampleState ℝ 3) 1 (by decide) (by decide)
  exact ⟨st1, calls, h, hp⟩

end Lighting
